import Mathlib

/-!
Verification development for the milesight-chirpstack dashboard.

The definitions below are a shallow embedding of the Python sources:
  app/mqtt_client.py   (MQTTClient._process_device_message)
  app/main.py          (ConnectionManager.broadcast, control_device,
                        _get_device_status, _is_device_active)
  chirpstack_cli.py    (_send_switch_command)

Python dictionaries holding device state are modelled as association
lists from device id to a DeviceState record; keys that may be absent
or null in a JSON payload are modelled as Option fields; numeric JSON
values are modelled as rationals; wall-clock timestamps are modelled as
rationals counting seconds.
-/

namespace Milesight

/-- JSON decoded sensor object: an opaque key/value mapping.  The code
passes it through without inspecting it. -/
abbrev DecodedData := List (String × ℚ)

/-- One element of the rxInfo list of an uplink payload. -/
structure RxItem where
  rssi : Option ℚ
  snr : Option ℚ
  gatewayId : Option String
deriving DecidableEq, Repr

/-- The txInfo object of an uplink payload.  In the Python code a missing
or empty txInfo dict is falsy; that case is modelled as none at the use
site. -/
structure TxItem where
  frequency : Option ℚ
  spreadingFactor : Option ℚ
deriving DecidableEq, Repr

/-- The deviceInfo object of an uplink payload. -/
structure DeviceInfo where
  devEui : Option String
  deviceName : Option String
  deviceProfileName : Option String
deriving DecidableEq, Repr

/-- An uplink MQTT payload, as far as _process_device_message reads it. -/
structure Payload where
  deviceInfo : Option DeviceInfo
  object : Option DecodedData
  rxInfo : List RxItem
  txInfo : Option TxItem
deriving DecidableEq, Repr

/-- One entry of the device_data dict.  A fresh entry is the Python dict
with only message_count set; the other fields model keys that
may be absent, or carry the values the first update writes. -/
structure DeviceState where
  message_count : Nat
  last_seen : Option String
  decoded_data : DecodedData
  device_name : String
  device_profile : String
  rssi : Option ℚ
  snr : Option ℚ
  gateway_id : Option String
  frequency : Option ℚ
  spreading_factor : Option ℚ
deriving DecidableEq, Repr

/-- The fresh entry created for a never-seen device id:
self.device_data[device_eui] = \x7b message_count: 0 \x7d. -/
def initState : DeviceState :=
  { message_count := 0
    last_seen := none
    decoded_data := []
    device_name := "Unknown"
    device_profile := "Unknown"
    rssi := none
    snr := none
    gateway_id := none
    frequency := none
    spreading_factor := none }

/-- The in-memory store self.device_data: a dict keyed by device id. -/
abbrev Store := List (String × DeviceState)

/-- Dict lookup: device_data.get(k). -/
def getKey (k : String) : Store → Option DeviceState
  | [] => none
  | (k₀, v) :: rest => if k₀ = k then some v else getKey k rest

/-- Dict write: device_data[k] = v (replaces in place, else appends). -/
def setKey (k : String) (v : DeviceState) : Store → Store
  | [] => [(k, v)]
  | (k₀, v₀) :: rest => if k₀ = k then (k, v) :: rest else (k₀, v₀) :: setKey k v rest

/-- The dict passed to the update callback for WebSocket broadcast and
database persistence. -/
structure CallbackData where
  decoded_data : DecodedData
  last_seen : String
  message_count : Nat
  rssi : Option ℚ
  snr : Option ℚ
deriving DecidableEq, Repr

/-- Python str.lower(), character by character (device EUIs are ASCII
hex strings, for which this coincides with Unicode lowercasing). -/
def lowerString (s : String) : String :=
  ⟨s.data.map Char.toLower⟩

/-- device_info = payload.get('deviceInfo', \x7b\x7d). -/
def deviceInfoOf (p : Payload) : DeviceInfo :=
  p.deviceInfo.getD ⟨none, none, none⟩

/-- device_eui = device_info.get('devEui', '').lower(). -/
def euiOf (p : Payload) : String :=
  lowerString ((deviceInfoOf p).devEui.getD "")

/-- device_name = device_info.get('deviceName', 'Unknown'). -/
def nameOf (p : Payload) : String :=
  (deviceInfoOf p).deviceName.getD "Unknown"

/-- device_profile = device_info.get('deviceProfileName', 'Unknown'). -/
def profileOf (p : Payload) : String :=
  (deviceInfoOf p).deviceProfileName.getD "Unknown"

/-- First update block: last_seen, message_count, decoded_data,
device_name, device_profile are always written. -/
def applyBase (nowStr : String) (p : Payload) (prev : DeviceState) : DeviceState :=
  { prev with
    last_seen := some nowStr
    message_count := prev.message_count + 1
    decoded_data := p.object.getD []
    device_name := nameOf p
    device_profile := profileOf p }

/-- Second update block: if rx_info is non-empty, rssi, snr and
gateway_id are all written from first_rx.get(...). -/
def applySignal (p : Payload) (st : DeviceState) : DeviceState :=
  match p.rxInfo with
  | [] => st
  | firstRx :: _ =>
    { st with rssi := firstRx.rssi, snr := firstRx.snr, gateway_id := firstRx.gatewayId }

/-- Third update block: if tx_info is truthy, frequency and
spreading_factor are both written from tx_info.get(...). -/
def applyTx (p : Payload) (st : DeviceState) : DeviceState :=
  match p.txInfo with
  | none => st
  | some tx =>
    { st with frequency := tx.frequency, spreading_factor := tx.spreadingFactor }

/-- The full per-event state update applied to the (possibly fresh)
entry for the event's device id. -/
def applyEvent (nowStr : String) (p : Payload) (prev : DeviceState) : DeviceState :=
  applyTx p (applySignal p (applyBase nowStr p prev))

/-- MQTTClient._process_device_message (app/mqtt_client.py).  Returns
the store after the call together with the data handed to the update
callback (none when the callback is not invoked).  The wall-clock
string datetime.now().strftime(...) is passed in as nowStr. -/
def processDeviceMessage (nowStr : String) (store : Store) (p : Payload) :
    Store × Option CallbackData :=
  let device_eui := euiOf p
  if device_eui = "" then (store, none)
  else
    let prev := (getKey device_eui store).getD initState
    let st := applyEvent nowStr p prev
    (setKey device_eui st store,
     some { decoded_data := p.object.getD []
            last_seen := nowStr
            message_count := st.message_count
            rssi := st.rssi
            snr := st.snr })

/-- Processing a sequence of (timestamp, payload) messages in order. -/
def processAll (store : Store) (msgs : List (String × Payload)) : Store :=
  msgs.foldl (fun st m => (processDeviceMessage m.1 st m.2).1) store

/-- message_count of the store's entry for a device id, 0 when absent. -/
def messageCountOf (e : String) (s : Store) : Nat :=
  ((getKey e s).map DeviceState.message_count).getD 0

/-- The entry for the event's device id after processing, as a record
(initState when the id is absent, which cannot happen for an accepted
event). -/
def stateAfter (nowStr : String) (store : Store) (p : Payload) : DeviceState :=
  (getKey (euiOf p) (processDeviceMessage nowStr store p).1).getD initState

/-! ### Store lemmas -/

theorem getKey_setKey_self (k : String) (v : DeviceState) (s : Store) :
    getKey k (setKey k v s) = some v := by
  induction s with
  | nil => simp [getKey, setKey]
  | cons hd tl ih =>
    obtain ⟨k₀, v₀⟩ := hd
    by_cases h : k₀ = k
    · simp [getKey, setKey, h]
    · simp [getKey, setKey, h, ih]

theorem getKey_setKey_ne (k k₁ : String) (v : DeviceState) (s : Store)
    (h : k₁ ≠ k) : getKey k (setKey k₁ v s) = getKey k s := by
  induction s with
  | nil => simp [getKey, setKey, h]
  | cons hd tl ih =>
    obtain ⟨k₀, v₀⟩ := hd
    by_cases h₀ : k₀ = k₁
    · subst h₀
      simp [getKey, setKey, h]
    · simp only [setKey, if_neg h₀, getKey]
      by_cases h₁ : k₀ = k
      · simp [h₁]
      · simp [h₁, ih]

/-! ### State-update lemmas -/

theorem applySignal_message_count (p : Payload) (st : DeviceState) :
    (applySignal p st).message_count = st.message_count := by
  unfold applySignal
  cases p.rxInfo <;> rfl

theorem applyTx_message_count (p : Payload) (st : DeviceState) :
    (applyTx p st).message_count = st.message_count := by
  unfold applyTx
  cases p.txInfo <;> rfl

theorem applyEvent_message_count (nowStr : String) (p : Payload) (prev : DeviceState) :
    (applyEvent nowStr p prev).message_count = prev.message_count + 1 := by
  unfold applyEvent
  rw [applyTx_message_count, applySignal_message_count]
  rfl

/-- One call to the ingestion update changes message_count for a device
id exactly when the call accepts an uplink carrying that id, and then by
exactly 1. -/
theorem messageCount_step (nowStr : String) (s : Store) (p : Payload) (e : String) :
    messageCountOf e (processDeviceMessage nowStr s p).1 =
      if euiOf p = e ∧ e ≠ "" then messageCountOf e s + 1 else messageCountOf e s := by
  by_cases hblank : euiOf p = ""
  · have h1 : processDeviceMessage nowStr s p = (s, none) := by
      unfold processDeviceMessage
      simp [hblank]
    rw [h1, if_neg (by rintro ⟨rfl, h⟩; exact h hblank)]
  · have h1 : (processDeviceMessage nowStr s p).1
        = setKey (euiOf p) (applyEvent nowStr p ((getKey (euiOf p) s).getD initState)) s := by
      unfold processDeviceMessage
      simp [hblank]
    rw [h1]
    by_cases heq : euiOf p = e
    · subst heq
      rw [if_pos ⟨rfl, hblank⟩]
      unfold messageCountOf
      rw [getKey_setKey_self]
      simp only [Option.map_some', Option.getD_some, applyEvent_message_count]
      cases hg : getKey (euiOf p) s <;> rfl
    · rw [if_neg (by rintro ⟨rfl, _⟩; exact heq rfl)]
      unfold messageCountOf
      rw [getKey_setKey_ne e (euiOf p) _ s heq]

theorem messageCount_processAll (e : String) (he : e ≠ "") (s : Store)
    (msgs : List (String × Payload)) :
    messageCountOf e (processAll s msgs) =
      messageCountOf e s + msgs.countP (fun m => euiOf m.2 == e) := by
  induction msgs generalizing s with
  | nil => simp [processAll]
  | cons m rest ih =>
    have hstep := messageCount_step m.1 s m.2 e
    by_cases heq : euiOf m.2 = e
    · have : (euiOf m.2 = e ∧ e ≠ "") := ⟨heq, he⟩
      rw [if_pos this] at hstep
      simp only [processAll, List.foldl_cons] at *
      rw [ih, hstep, List.countP_cons]
      simp [heq]
      omega
    · rw [if_neg (by rintro ⟨h, _⟩; exact heq h)] at hstep
      simp only [processAll, List.foldl_cons] at *
      rw [ih, hstep, List.countP_cons]
      simp [heq]

/-! ### WebSocket connection manager (app/main.py, ConnectionManager) -/

/-- A registered WebSocket subscriber.  fails models send_text raising
for this connection during the broadcast pass. -/
structure WSConn where
  id : Nat
  fails : Bool
deriving DecidableEq, Repr

/-- The for-loop of ConnectionManager.broadcast: walk the active list
front to back; a successful send_text appends to the delivered trace, a
raising one appends the connection to the local disconnected list and
the loop continues.  Returns (delivered, disconnected) in loop order. -/
def broadcastPass : List WSConn → List WSConn × List WSConn
  | [] => ([], [])
  | c :: rest =>
    let p := broadcastPass rest
    if c.fails then (p.1, c :: p.2) else (c :: p.1, p.2)

/-- list.remove(x): drop the first occurrence of x. -/
def removeFirst (c : WSConn) : List WSConn → List WSConn
  | [] => []
  | c₀ :: rest => if c₀ = c then rest else c₀ :: removeFirst c rest

/-- ConnectionManager.disconnect: remove the websocket from
active_connections when present. -/
def disconnect (active : List WSConn) (c : WSConn) : List WSConn :=
  if c ∈ active then removeFirst c active else active

/-- ConnectionManager.broadcast: send to every active connection,
collecting failures, then disconnect each failed connection after the
pass.  Returns (connections the message was delivered to, active set
after the call). -/
def broadcast (active : List WSConn) : List WSConn × List WSConn :=
  let p := broadcastPass active
  (p.1, p.2.foldl disconnect active)

/-! ### Broadcast lemmas -/

theorem broadcastPass_eq (l : List WSConn) :
    broadcastPass l = (l.filter (fun c => !c.fails), l.filter (fun c => c.fails)) := by
  induction l with
  | nil => rfl
  | cons c rest ih =>
    cases hc : c.fails <;> simp [broadcastPass, ih, List.filter_cons, hc]

theorem disconnect_cons_ne (c d : WSConn) (l : List WSConn) (h : d ≠ c) :
    disconnect (c :: l) d = c :: disconnect l d := by
  unfold disconnect
  by_cases hm : d ∈ l
  · rw [if_pos (List.mem_cons_of_mem c hm), if_pos hm]
    simp only [removeFirst]
    rw [if_neg (by intro he; exact h he.symm)]
  · have : d ∉ c :: l := by
      intro hd
      rcases List.mem_cons.mp hd with he | hl
      · exact h he
      · exact hm hl
    rw [if_neg this, if_neg hm]

theorem foldl_disconnect_cons (c : WSConn) (hc : c.fails = false) (l : List WSConn)
    (ds : List WSConn) (hds : ∀ d ∈ ds, d.fails = true) :
    ds.foldl disconnect (c :: l) = c :: ds.foldl disconnect l := by
  induction ds generalizing l with
  | nil => rfl
  | cons d rest ih =>
    have hd : d ≠ c := by
      intro he
      have hdt := hds d (List.mem_cons_self d rest)
      rw [he, hc] at hdt
      exact Bool.false_ne_true hdt
    simp only [List.foldl_cons, disconnect_cons_ne c d l hd]
    exact ih (disconnect l d) (fun x hx => hds x (List.mem_cons_of_mem d hx))

theorem foldl_disconnect_filter (l : List WSConn) :
    (l.filter (fun c => c.fails)).foldl disconnect l = l.filter (fun c => !c.fails) := by
  induction l with
  | nil => rfl
  | cons c rest ih =>
    cases hc : c.fails
    · rw [List.filter_cons_of_neg (by simp [hc]), List.filter_cons_of_pos (by simp [hc])]
      rw [foldl_disconnect_cons c hc rest _ (fun d hd => (List.mem_filter.mp hd).2), ih]
    · rw [List.filter_cons_of_pos (by simp [hc]), List.filter_cons_of_neg (by simp [hc])]
      have h1 : disconnect (c :: rest) c = rest := by
        unfold disconnect
        rw [if_pos (List.mem_cons_self c rest)]
        simp [removeFirst]
      simp only [List.foldl_cons, h1, ih]

/-! ### Device status (app/main.py, _get_device_status) -/

/-- The live-data mapping as read by _get_device_status: only the
last_seen key is consulted (none models both an empty mapping and a
mapping without the key; the empty string is falsy in Python and is
treated like a missing value). -/
structure LiveData where
  last_seen : Option String
deriving DecidableEq, Repr

/-- The classification at the heart of _get_device_status, once
last_seen has been parsed: time_diff = now - last_seen in seconds. -/
def statusFromTimes (lastSeen now : ℚ) : String :=
  if now - lastSeen < 120 then "online"
  else if now - lastSeen < 600 then "recent"
  else "offline"

/-- _get_device_status.  Timestamp parsing (datetime.fromisoformat or
strptime depending on the format, with the surrounding try/except) is
modelled by an explicit parse function returning none exactly when the
Python parse raises; any exception yields "offline". -/
def getDeviceStatus (parse : String → Option ℚ) (liveData : LiveData) (now : ℚ) : String :=
  match liveData.last_seen with
  | none => "offline"
  | some s =>
    if s = "" then "offline"
    else
      match parse s with
      | none => "offline"
      | some lastSeen => statusFromTimes lastSeen now

/-- _is_device_active: status in ["online", "recent"]. -/
def isDeviceActive (parse : String → Option ℚ) (liveData : LiveData) (now : ℚ) : Bool :=
  getDeviceStatus parse liveData now == "online" ||
    getDeviceStatus parse liveData now == "recent"

/-! ### Downlink dispatch (chirpstack_cli.py _send_switch_command and
app/main.py control_device) -/

/-- The DeviceQueueItem built by _send_switch_command. -/
structure QueueItem where
  dev_eui : String
  confirmed : Bool
  f_port : Nat
  object : List (String × String)
deriving DecidableEq, Repr

/-- _send_switch_command: payload = \x7b switch_type: action \x7d, a
confirmed downlink on fPort 85, enqueued for the device. -/
def sendSwitchCommand (devEui action switchType : String) : QueueItem :=
  { dev_eui := devEui
    confirmed := true
    f_port := 85
    object := [(switchType, action)] }

/-- Result of the control_device endpoint. -/
inductive ControlResult where
  | httpError (code : Nat) (detail : String)
  | ok (message : String)
deriving DecidableEq, Repr

/-- control_device (app/main.py): action and switch come from the JSON
body (none models an absent key).  Returns the HTTP outcome together
with the list of downlink commands enqueued, in dispatch order.  The
Python truthiness guard "if switch and switch in [...]" is modelled by
the match on the optional switch (the empty string is not in the list,
so the falsy case coincides with the not-in-list case). -/
def controlDevice (devEui : String) (action : Option String) (switch : Option String) :
    ControlResult × List QueueItem :=
  if action ≠ some "on" ∧ action ≠ some "off" then
    (ControlResult.httpError 400 "Action must be on or off", [])
  else
    let act := action.getD ""
    match switch with
    | some sw =>
      if sw = "switch_1" ∨ sw = "switch_2" then
        (ControlResult.ok ("Command sent: " ++ sw ++ " " ++ act),
         [sendSwitchCommand devEui act sw])
      else
        (ControlResult.ok ("Command sent: both switches " ++ act),
         [sendSwitchCommand devEui act "switch_1", sendSwitchCommand devEui act "switch_2"])
    | none =>
      (ControlResult.ok ("Command sent: both switches " ++ act),
       [sendSwitchCommand devEui act "switch_1", sendSwitchCommand devEui act "switch_2"])

/-! ### Field lemmas for the per-event update -/

theorem stateAfter_eq (nowStr : String) (s : Store) (p : Payload) (h : euiOf p ≠ "") :
    stateAfter nowStr s p = applyEvent nowStr p ((getKey (euiOf p) s).getD initState) := by
  unfold stateAfter processDeviceMessage
  simp [h, getKey_setKey_self]

theorem applyEvent_decoded (nowStr : String) (p : Payload) (prev : DeviceState) :
    (applyEvent nowStr p prev).decoded_data = p.object.getD [] := by
  unfold applyEvent applyTx applySignal applyBase
  cases p.txInfo <;> cases p.rxInfo <;> rfl

theorem applyEvent_name (nowStr : String) (p : Payload) (prev : DeviceState) :
    (applyEvent nowStr p prev).device_name = nameOf p := by
  unfold applyEvent applyTx applySignal applyBase
  cases p.txInfo <;> cases p.rxInfo <;> rfl

theorem applyEvent_profile (nowStr : String) (p : Payload) (prev : DeviceState) :
    (applyEvent nowStr p prev).device_profile = profileOf p := by
  unfold applyEvent applyTx applySignal applyBase
  cases p.txInfo <;> cases p.rxInfo <;> rfl

theorem applyEvent_signal_nil (nowStr : String) (p : Payload) (prev : DeviceState)
    (h : p.rxInfo = []) :
    (applyEvent nowStr p prev).rssi = prev.rssi ∧
    (applyEvent nowStr p prev).snr = prev.snr ∧
    (applyEvent nowStr p prev).gateway_id = prev.gateway_id := by
  unfold applyEvent applyTx applySignal applyBase
  rw [h]
  cases p.txInfo <;> exact ⟨rfl, rfl, rfl⟩

theorem applyEvent_signal_cons (nowStr : String) (p : Payload) (prev : DeviceState)
    (firstRx : RxItem) (rest : List RxItem) (h : p.rxInfo = firstRx :: rest) :
    (applyEvent nowStr p prev).rssi = firstRx.rssi ∧
    (applyEvent nowStr p prev).snr = firstRx.snr ∧
    (applyEvent nowStr p prev).gateway_id = firstRx.gatewayId := by
  unfold applyEvent applyTx applySignal applyBase
  rw [h]
  cases p.txInfo <;> exact ⟨rfl, rfl, rfl⟩

theorem applyEvent_tx_none (nowStr : String) (p : Payload) (prev : DeviceState)
    (h : p.txInfo = none) :
    (applyEvent nowStr p prev).frequency = prev.frequency ∧
    (applyEvent nowStr p prev).spreading_factor = prev.spreading_factor := by
  unfold applyEvent applyTx applySignal applyBase
  rw [h]
  cases p.rxInfo <;> exact ⟨rfl, rfl⟩

theorem applyEvent_tx_some (nowStr : String) (p : Payload) (prev : DeviceState)
    (tx : TxItem) (h : p.txInfo = some tx) :
    (applyEvent nowStr p prev).frequency = tx.frequency ∧
    (applyEvent nowStr p prev).spreading_factor = tx.spreadingFactor := by
  unfold applyEvent applyTx applySignal applyBase
  rw [h]
  cases p.rxInfo <;> exact ⟨rfl, rfl⟩

/-! ### Classification helper lemmas -/

theorem statusFromTimes_online_iff (lastSeen now : ℚ) :
    statusFromTimes lastSeen now = "online" ↔ now - lastSeen < 120 := by
  unfold statusFromTimes
  split_ifs with h1 h2
  · exact iff_of_true rfl h1
  · exact iff_of_false (by decide) h1
  · exact iff_of_false (by decide) h1

theorem statusFromTimes_recent_iff (lastSeen now : ℚ) :
    statusFromTimes lastSeen now = "recent" ↔
      120 ≤ now - lastSeen ∧ now - lastSeen < 600 := by
  unfold statusFromTimes
  split_ifs with h1 h2
  · exact iff_of_false (by decide) (by rintro ⟨hle, _⟩; linarith)
  · exact iff_of_true rfl ⟨by linarith, h2⟩
  · exact iff_of_false (by decide) (by rintro ⟨_, hlt⟩; exact h2 hlt)

theorem statusFromTimes_offline_iff (lastSeen now : ℚ) :
    statusFromTimes lastSeen now = "offline" ↔ 600 ≤ now - lastSeen := by
  unfold statusFromTimes
  split_ifs with h1 h2
  · exact iff_of_false (by decide) (by intro hle; linarith)
  · exact iff_of_false (by decide) (by intro hle; linarith)
  · exact iff_of_true rfl (le_of_not_lt h2)

/-! ### Concrete sample data -/

/-- An uplink mirroring the worked example in the spec: uppercase EUI,
a name and profile, one sensor field and one rxInfo gateway. -/
def samplePayloadA : Payload :=
  { deviceInfo := some
      { devEui := some "AA:BB", deviceName := some "Sensor1", deviceProfileName := some "WS101" }
    object := some [("temp", 22)]
    rxInfo := [{ rssi := some (-60), snr := some 7, gatewayId := some "gw1" }]
    txInfo := none }

/-- An uplink for a different device id. -/
def samplePayloadB : Payload :=
  { deviceInfo := some
      { devEui := some "cc:dd", deviceName := some "Other", deviceProfileName := none }
    object := some []
    rxInfo := []
    txInfo := none }

/-- A malformed uplink: no deviceInfo at all, hence no device id. -/
def samplePayloadNoEui : Payload :=
  { deviceInfo := none
    object := some [("temp", 21)]
    rxInfo := []
    txInfo := none }

/-- A second uplink for aa:bb with a new sensor reading and no rxInfo. -/
def samplePayloadNoRx : Payload :=
  { deviceInfo := some
      { devEui := some "aa:bb", deviceName := none, deviceProfileName := none }
    object := some [("temp", 23)]
    rxInfo := []
    txInfo := none }

/-- A second uplink for aa:bb whose rxInfo carries rssi but no snr and
no gateway id. -/
def samplePayloadRssiOnly : Payload :=
  { deviceInfo := some
      { devEui := some "aa:bb", deviceName := none, deviceProfileName := none }
    object := some [("temp", 23)]
    rxInfo := [{ rssi := some (-55), snr := none, gatewayId := none }]
    txInfo := none }

/-- A second uplink for AA:BB that carries neither a deviceName nor a
deviceProfileName. -/
def samplePayloadNoName : Payload :=
  { deviceInfo := some
      { devEui := some "AA:BB", deviceName := none, deviceProfileName := none }
    object := none
    rxInfo := []
    txInfo := none }

/-- A three-message interleaving: two uplinks for aa:bb around one for
cc:dd. -/
def sampleMsgs : List (String × Payload) :=
  [("2024-01-01 00:00:00", samplePayloadA),
   ("2024-01-01 00:00:10", samplePayloadB),
   ("2024-01-01 00:00:20", samplePayloadA)]

/-! ### Claim theorems -/

/-- C1: starting from a store with no entry for a device id, processing
any interleaved sequence of uplinks leaves that device's message_count
equal to the number of uplinks carrying that id; a fresh entry counts
from 0 and each accepted uplink for the id increments the count by
exactly 1. -/
theorem c1_message_count_per_device (e : String) (he : e ≠ "") (s₀ : Store)
    (h₀ : getKey e s₀ = none) (msgs : List (String × Payload)) :
    messageCountOf e (processAll s₀ msgs) = msgs.countP (fun m => euiOf m.2 == e) ∧
    messageCountOf e s₀ = 0 ∧
    ∀ (nowStr : String) (s : Store) (p : Payload), euiOf p = e →
      messageCountOf e (processDeviceMessage nowStr s p).1 = messageCountOf e s + 1 := by
  refine ⟨?_, ?_, ?_⟩
  · rw [messageCount_processAll e he s₀ msgs]
    simp [messageCountOf, h₀]
  · simp [messageCountOf, h₀]
  · intro nowStr s p hp
    rw [messageCount_step, if_pos ⟨hp, he⟩]

theorem c1_message_count_per_device_witness :
    (("aa:bb" : String) ≠ "" ∧ getKey "aa:bb" ([] : Store) = none) ∧
    (messageCountOf "aa:bb" (processAll [] sampleMsgs) =
        sampleMsgs.countP (fun m => euiOf m.2 == "aa:bb") ∧
      messageCountOf "aa:bb" ([] : Store) = 0 ∧
      ∀ (nowStr : String) (s : Store) (p : Payload), euiOf p = "aa:bb" →
        messageCountOf "aa:bb" (processDeviceMessage nowStr s p).1
          = messageCountOf "aa:bb" s + 1) :=
  ⟨⟨by decide, rfl⟩, c1_message_count_per_device "aa:bb" (by decide) [] rfl sampleMsgs⟩

/-- C2: the status classification is a pure function of last_seen and
now with cutoffs at 120 and 600 seconds, returning exactly one of
online, recent, offline, with online at a diff of 0, recent at 300 and
offline at 700. -/
theorem c2_status_classification (parse : String → Option ℚ) (s : String)
    (lastSeen now : ℚ) (hs : s ≠ "") (hp : parse s = some lastSeen) :
    getDeviceStatus parse ⟨some s⟩ now = statusFromTimes lastSeen now ∧
    (statusFromTimes lastSeen now = "online" ∨ statusFromTimes lastSeen now = "recent" ∨
      statusFromTimes lastSeen now = "offline") ∧
    (statusFromTimes lastSeen now = "online" ↔ now - lastSeen < 120) ∧
    (statusFromTimes lastSeen now = "recent" ↔
      120 ≤ now - lastSeen ∧ now - lastSeen < 600) ∧
    (statusFromTimes lastSeen now = "offline" ↔ 600 ≤ now - lastSeen) ∧
    statusFromTimes now now = "online" ∧
    statusFromTimes (now - 300) now = "recent" ∧
    statusFromTimes (now - 700) now = "offline" := by
  refine ⟨?_, ?_, statusFromTimes_online_iff lastSeen now,
    statusFromTimes_recent_iff lastSeen now, statusFromTimes_offline_iff lastSeen now,
    ?_, ?_, ?_⟩
  · simp [getDeviceStatus, hs, hp]
  · unfold statusFromTimes
    split_ifs <;> simp
  · unfold statusFromTimes
    rw [if_pos (by linarith)]
  · unfold statusFromTimes
    rw [if_neg (by linarith), if_pos (by linarith)]
  · unfold statusFromTimes
    rw [if_neg (by linarith), if_neg (by linarith)]

theorem c2_status_classification_witness :
    (("t" : String) ≠ "" ∧ (fun (_ : String) => some (0 : ℚ)) "t" = some (0 : ℚ)) ∧
    (getDeviceStatus (fun _ => some (0 : ℚ)) ⟨some "t"⟩ 0 = statusFromTimes 0 0 ∧
      (statusFromTimes (0 : ℚ) 0 = "online" ∨ statusFromTimes (0 : ℚ) 0 = "recent" ∨
        statusFromTimes (0 : ℚ) 0 = "offline") ∧
      (statusFromTimes (0 : ℚ) 0 = "online" ↔ (0 : ℚ) - 0 < 120) ∧
      (statusFromTimes (0 : ℚ) 0 = "recent" ↔
        120 ≤ (0 : ℚ) - 0 ∧ (0 : ℚ) - 0 < 600) ∧
      (statusFromTimes (0 : ℚ) 0 = "offline" ↔ 600 ≤ (0 : ℚ) - 0) ∧
      statusFromTimes (0 : ℚ) 0 = "online" ∧
      statusFromTimes ((0 : ℚ) - 300) 0 = "recent" ∧
      statusFromTimes ((0 : ℚ) - 700) 0 = "offline") :=
  ⟨⟨by decide, rfl⟩, c2_status_classification (fun _ => some 0) "t" 0 0 (by decide) rfl⟩

/-- C3: broadcast delivers to every non-failing subscriber regardless
of failures among the others, and afterwards the active set is exactly
the non-failing subscribers; in particular with subscribers 1, 2, 3
where only 2 throws, 1 and 3 receive the message and remain active. -/
theorem c3_broadcast_failure_isolation (active : List WSConn) :
    (broadcast active).1 = active.filter (fun c => !c.fails) ∧
    (broadcast active).2 = active.filter (fun c => !c.fails) ∧
    (broadcast [⟨1, false⟩, ⟨2, true⟩, ⟨3, false⟩]).1 = [⟨1, false⟩, ⟨3, false⟩] ∧
    (broadcast [⟨1, false⟩, ⟨2, true⟩, ⟨3, false⟩]).2 = [⟨1, false⟩, ⟨3, false⟩] := by
  refine ⟨?_, ?_, by decide, by decide⟩
  · simp [broadcast, broadcastPass_eq]
  · simp only [broadcast, broadcastPass_eq]
    exact foldl_disconnect_filter active

/-- C4: a payload without a device identifier is rejected before any
state change: the store is returned untouched and the persistence and
broadcast callback receives nothing. -/
theorem c4_malformed_payload_no_update (nowStr : String) (s : Store) (p : Payload)
    (h : euiOf p = "") :
    processDeviceMessage nowStr s p = (s, none) := by
  unfold processDeviceMessage
  simp [h]

theorem c4_malformed_payload_no_update_witness :
    euiOf samplePayloadNoEui = "" ∧
    processDeviceMessage "2024-01-01 00:00:00" [("aa:bb", initState)] samplePayloadNoEui
      = ([("aa:bb", initState)], none) :=
  ⟨by decide,
   c4_malformed_payload_no_update "2024-01-01 00:00:00" [("aa:bb", initState)]
     samplePayloadNoEui (by decide)⟩

/-- C5 as written is false: when an incoming event has a non-empty
rxInfo whose first element carries rssi but no snr, the stored snr is
overwritten with the missing value instead of keeping its previous
value. -/
theorem c5_counterexample :
    (stateAfter "t1" [] samplePayloadA).snr = some 7 ∧
    (samplePayloadRssiOnly.rxInfo.head?.bind RxItem.snr) = none ∧
    (stateAfter "t2" (processDeviceMessage "t1" [] samplePayloadA).1
        samplePayloadRssiOnly).snr = none ∧
    (stateAfter "t2" (processDeviceMessage "t1" [] samplePayloadA).1
        samplePayloadRssiOnly).snr ≠ some 7 := by
  refine ⟨by decide, by decide, by decide, by decide⟩

/-- C5 amended: decoded_fields is replaced wholesale on every accepted
uplink; the signal sub-fields rssi, snr and gateway_id are overwritten
as a group (with the values the first rxInfo element carries, missing
ones included) exactly when rxInfo is non-empty and all keep their
previous values when it is empty; the radio sub-fields frequency and
spreading_factor are likewise overwritten as a group exactly when
txInfo is present and kept otherwise.  In particular a second uplink
with a new decoded object and no rxInfo leaves rssi and snr
unchanged. -/
theorem c5_decoded_wholesale_signal_group (nowStr : String) (s : Store) (p : Payload)
    (h : euiOf p ≠ "") :
    (stateAfter nowStr s p).decoded_data = p.object.getD [] ∧
    (p.rxInfo = [] →
      (stateAfter nowStr s p).rssi = ((getKey (euiOf p) s).getD initState).rssi ∧
      (stateAfter nowStr s p).snr = ((getKey (euiOf p) s).getD initState).snr ∧
      (stateAfter nowStr s p).gateway_id = ((getKey (euiOf p) s).getD initState).gateway_id) ∧
    (∀ firstRx rest, p.rxInfo = firstRx :: rest →
      (stateAfter nowStr s p).rssi = firstRx.rssi ∧
      (stateAfter nowStr s p).snr = firstRx.snr ∧
      (stateAfter nowStr s p).gateway_id = firstRx.gatewayId) ∧
    (p.txInfo = none →
      (stateAfter nowStr s p).frequency = ((getKey (euiOf p) s).getD initState).frequency ∧
      (stateAfter nowStr s p).spreading_factor
        = ((getKey (euiOf p) s).getD initState).spreading_factor) ∧
    (∀ tx, p.txInfo = some tx →
      (stateAfter nowStr s p).frequency = tx.frequency ∧
      (stateAfter nowStr s p).spreading_factor = tx.spreadingFactor) := by
  rw [stateAfter_eq nowStr s p h]
  refine ⟨applyEvent_decoded nowStr p _, ?_, ?_, ?_, ?_⟩
  · intro hrx
    exact applyEvent_signal_nil nowStr p _ hrx
  · intro firstRx rest hrx
    exact applyEvent_signal_cons nowStr p _ firstRx rest hrx
  · intro htx
    exact applyEvent_tx_none nowStr p _ htx
  · intro tx htx
    exact applyEvent_tx_some nowStr p _ tx htx

theorem c5_decoded_wholesale_signal_group_witness :
    euiOf samplePayloadNoRx ≠ "" ∧
    ((stateAfter "t2" (processDeviceMessage "t1" [] samplePayloadA).1
        samplePayloadNoRx).decoded_data = samplePayloadNoRx.object.getD [] ∧
      (samplePayloadNoRx.rxInfo = [] →
        (stateAfter "t2" (processDeviceMessage "t1" [] samplePayloadA).1
            samplePayloadNoRx).rssi
          = ((getKey (euiOf samplePayloadNoRx)
              (processDeviceMessage "t1" [] samplePayloadA).1).getD initState).rssi ∧
        (stateAfter "t2" (processDeviceMessage "t1" [] samplePayloadA).1
            samplePayloadNoRx).snr
          = ((getKey (euiOf samplePayloadNoRx)
              (processDeviceMessage "t1" [] samplePayloadA).1).getD initState).snr ∧
        (stateAfter "t2" (processDeviceMessage "t1" [] samplePayloadA).1
            samplePayloadNoRx).gateway_id
          = ((getKey (euiOf samplePayloadNoRx)
              (processDeviceMessage "t1" [] samplePayloadA).1).getD initState).gateway_id) ∧
      (∀ firstRx rest, samplePayloadNoRx.rxInfo = firstRx :: rest →
        (stateAfter "t2" (processDeviceMessage "t1" [] samplePayloadA).1
            samplePayloadNoRx).rssi = firstRx.rssi ∧
        (stateAfter "t2" (processDeviceMessage "t1" [] samplePayloadA).1
            samplePayloadNoRx).snr = firstRx.snr ∧
        (stateAfter "t2" (processDeviceMessage "t1" [] samplePayloadA).1
            samplePayloadNoRx).gateway_id = firstRx.gatewayId) ∧
      (samplePayloadNoRx.txInfo = none →
        (stateAfter "t2" (processDeviceMessage "t1" [] samplePayloadA).1
            samplePayloadNoRx).frequency
          = ((getKey (euiOf samplePayloadNoRx)
              (processDeviceMessage "t1" [] samplePayloadA).1).getD initState).frequency ∧
        (stateAfter "t2" (processDeviceMessage "t1" [] samplePayloadA).1
            samplePayloadNoRx).spreading_factor
          = ((getKey (euiOf samplePayloadNoRx)
              (processDeviceMessage "t1" [] samplePayloadA).1).getD
                initState).spreading_factor) ∧
      (∀ tx, samplePayloadNoRx.txInfo = some tx →
        (stateAfter "t2" (processDeviceMessage "t1" [] samplePayloadA).1
            samplePayloadNoRx).frequency = tx.frequency ∧
        (stateAfter "t2" (processDeviceMessage "t1" [] samplePayloadA).1
            samplePayloadNoRx).spreading_factor = tx.spreadingFactor)) :=
  ⟨by decide,
   c5_decoded_wholesale_signal_group "t2" (processDeviceMessage "t1" [] samplePayloadA).1
     samplePayloadNoRx (by decide)⟩

/-- C6 as written is false: an event that carries no deviceName and no
deviceProfileName does not leave a previously stored non-default name
and profile unchanged; the update overwrites both with the default
"Unknown". -/
theorem c6_counterexample :
    (stateAfter "t1" [] samplePayloadA).device_name = "Sensor1" ∧
    (stateAfter "t1" [] samplePayloadA).device_profile = "WS101" ∧
    (deviceInfoOf samplePayloadNoName).deviceName = none ∧
    (deviceInfoOf samplePayloadNoName).deviceProfileName = none ∧
    (stateAfter "t2" (processDeviceMessage "t1" [] samplePayloadA).1
        samplePayloadNoName).device_name = "Unknown" ∧
    (stateAfter "t2" (processDeviceMessage "t1" [] samplePayloadA).1
        samplePayloadNoName).device_name ≠ "Sensor1" ∧
    (stateAfter "t2" (processDeviceMessage "t1" [] samplePayloadA).1
        samplePayloadNoName).device_profile = "Unknown" ∧
    (stateAfter "t2" (processDeviceMessage "t1" [] samplePayloadA).1
        samplePayloadNoName).device_profile ≠ "WS101" := by
  refine ⟨by decide, by decide, by decide, by decide, by decide, by decide, by decide,
    by decide⟩

/-- C6 amended: the store key is the lower-cased devEui, and
device_name / device_profile are unconditionally overwritten on every
accepted uplink with the event's values, which default to "Unknown"
when the event omits them. -/
theorem c6_lowercase_key_name_overwritten (nowStr : String) (s : Store) (p : Payload)
    (h : euiOf p ≠ "") :
    getKey (euiOf p) (processDeviceMessage nowStr s p).1 = some (stateAfter nowStr s p) ∧
    (stateAfter nowStr s p).device_name = nameOf p ∧
    (stateAfter nowStr s p).device_profile = profileOf p ∧
    ∀ raw, (deviceInfoOf p).devEui = some raw → euiOf p = lowerString raw := by
  refine ⟨?_, ?_, ?_, ?_⟩
  · unfold stateAfter processDeviceMessage
    simp [h, getKey_setKey_self]
  · rw [stateAfter_eq nowStr s p h]
    exact applyEvent_name nowStr p _
  · rw [stateAfter_eq nowStr s p h]
    exact applyEvent_profile nowStr p _
  · intro raw hr
    unfold euiOf
    rw [hr]
    rfl

theorem c6_lowercase_key_name_overwritten_witness :
    euiOf samplePayloadNoName ≠ "" ∧
    (getKey (euiOf samplePayloadNoName)
        (processDeviceMessage "t2" (processDeviceMessage "t1" [] samplePayloadA).1
          samplePayloadNoName).1
      = some (stateAfter "t2" (processDeviceMessage "t1" [] samplePayloadA).1
          samplePayloadNoName) ∧
      (stateAfter "t2" (processDeviceMessage "t1" [] samplePayloadA).1
          samplePayloadNoName).device_name = nameOf samplePayloadNoName ∧
      (stateAfter "t2" (processDeviceMessage "t1" [] samplePayloadA).1
          samplePayloadNoName).device_profile = profileOf samplePayloadNoName ∧
      ∀ raw, (deviceInfoOf samplePayloadNoName).devEui = some raw →
        euiOf samplePayloadNoName = lowerString raw) :=
  ⟨by decide,
   c6_lowercase_key_name_overwritten "t2" (processDeviceMessage "t1" [] samplePayloadA).1
     samplePayloadNoName (by decide)⟩

/-- C7: every dispatched downlink command carries a single-key payload
mapping the requested channel to the requested action, is marked
confirmed and uses the fixed application port 85; dispatching for
switch_1 and then switch_2 yields two independent single-key payloads
and never a combined one. -/
theorem c7_single_key_confirmed_downlink (devEui action switchType : String) :
    (sendSwitchCommand devEui action switchType).object = [(switchType, action)] ∧
    (sendSwitchCommand devEui action switchType).object.length = 1 ∧
    (sendSwitchCommand devEui action switchType).confirmed = true ∧
    (sendSwitchCommand devEui action switchType).f_port = 85 ∧
    (sendSwitchCommand "aa:bb" "on" "switch_1").object = [("switch_1", "on")] ∧
    (sendSwitchCommand "aa:bb" "on" "switch_2").object = [("switch_2", "on")] :=
  ⟨rfl, rfl, rfl, rfl, rfl, rfl⟩

/-- C8: the control endpoint validates the action before any dispatch:
an action other than on and off yields the 400 invalid-action error
with no downlink enqueued, and a valid action never yields it. -/
theorem c8_action_validated_before_dispatch (devEui : String)
    (action switch : Option String) :
    (action ≠ some "on" ∧ action ≠ some "off" →
      controlDevice devEui action switch
        = (ControlResult.httpError 400 "Action must be on or off", [])) ∧
    (action = some "on" ∨ action = some "off" →
      ∃ message, (controlDevice devEui action switch).1 = ControlResult.ok message) := by
  constructor
  · intro h
    unfold controlDevice
    rw [if_pos h]
  · intro h
    have hne : ¬(action ≠ some "on" ∧ action ≠ some "off") := by
      rcases h with h | h <;> simp [h]
    unfold controlDevice
    rw [if_neg hne]
    cases switch with
    | none => exact ⟨_, rfl⟩
    | some sw =>
      dsimp only
      by_cases hsw : sw = "switch_1" ∨ sw = "switch_2"
      · exact ⟨_, by rw [if_pos hsw]⟩
      · exact ⟨_, by rw [if_neg hsw]⟩

theorem c8_action_validated_before_dispatch_witness :
    ((some "up" ≠ some "on" ∧ some "up" ≠ some "off") ∧
      controlDevice "aa:bb" (some "up") (some "switch_1")
        = (ControlResult.httpError 400 "Action must be on or off", [])) ∧
    ((some "on" = some "on" ∨ some "on" = some "off") ∧
      ∃ message, (controlDevice "aa:bb" (some "on") (some "switch_1")).1
        = ControlResult.ok message) :=
  ⟨⟨by decide,
    (c8_action_validated_before_dispatch "aa:bb" (some "up") (some "switch_1")).1
      (by decide)⟩,
   ⟨Or.inl rfl,
    (c8_action_validated_before_dispatch "aa:bb" (some "on") (some "switch_1")).2
      (Or.inl rfl)⟩⟩

/-- C9: with a valid action, a missing switch value or one outside
switch_1 and switch_2 does not fail: the endpoint dispatches two
downlink commands with the requested action, one to switch_1 and one
to switch_2. -/
theorem c9_unrecognized_switch_controls_both (devEui act : String) (switch : Option String)
    (ha : act = "on" ∨ act = "off")
    (hsw : switch = none ∨ ∀ sw, switch = some sw → ¬(sw = "switch_1" ∨ sw = "switch_2")) :
    controlDevice devEui (some act) switch
      = (ControlResult.ok ("Command sent: both switches " ++ act),
         [sendSwitchCommand devEui act "switch_1",
          sendSwitchCommand devEui act "switch_2"]) := by
  have hne : ¬(some act ≠ some "on" ∧ some act ≠ some "off") := by
    rcases ha with h | h <;> simp [h]
  unfold controlDevice
  rw [if_neg hne]
  rcases hsw with hsw | hsw
  · rw [hsw]
    rfl
  · cases switch with
    | none => rfl
    | some sw =>
      dsimp only
      rw [if_neg (hsw sw rfl)]
      rfl

theorem c9_unrecognized_switch_controls_both_witness :
    (("on" = "on" ∨ ("on" : String) = "off") ∧
      ((some "switch_3" : Option String) = none ∨
        ∀ sw, (some "switch_3" : Option String) = some sw →
          ¬(sw = "switch_1" ∨ sw = "switch_2"))) ∧
    controlDevice "aa:bb" (some "on") (some "switch_3")
      = (ControlResult.ok ("Command sent: both switches " ++ "on"),
         [sendSwitchCommand "aa:bb" "on" "switch_1",
          sendSwitchCommand "aa:bb" "on" "switch_2"]) :=
  ⟨⟨Or.inl rfl,
    Or.inr (fun sw hsw => by
      cases Option.some.inj hsw
      decide)⟩,
   c9_unrecognized_switch_controls_both "aa:bb" "on" (some "switch_3") (Or.inl rfl)
     (Or.inr (fun sw hsw => by
       cases Option.some.inj hsw
       decide))⟩

/-- C10: the status classification is total at the public interface: an
empty live-data mapping, a missing last_seen, an empty last_seen or an
unparseable timestamp all classify as offline, and the activity check
returns false, with no error propagated. -/
theorem c10_status_total_offline (parse : String → Option ℚ) (now : ℚ) :
    getDeviceStatus parse ⟨none⟩ now = "offline" ∧
    getDeviceStatus parse ⟨some ""⟩ now = "offline" ∧
    (∀ s, parse s = none → getDeviceStatus parse ⟨some s⟩ now = "offline") ∧
    isDeviceActive parse ⟨none⟩ now = false ∧
    isDeviceActive parse ⟨some ""⟩ now = false ∧
    (∀ s, parse s = none → isDeviceActive parse ⟨some s⟩ now = false) := by
  have hsome : ∀ s, parse s = none → getDeviceStatus parse ⟨some s⟩ now = "offline" := by
    intro s hs
    unfold getDeviceStatus
    by_cases hblank : s = ""
    · simp [hblank]
    · simp [hblank, hs]
  have hnone : getDeviceStatus parse ⟨none⟩ now = "offline" := rfl
  have hblankcase : getDeviceStatus parse ⟨some ""⟩ now = "offline" := by
    simp [getDeviceStatus]
  refine ⟨hnone, hblankcase, hsome, ?_, ?_, ?_⟩
  · simp [isDeviceActive, hnone]
  · simp [isDeviceActive, hblankcase]
  · intro s hs
    simp [isDeviceActive, hsome s hs]

theorem c10_status_total_offline_witness :
    getDeviceStatus (fun _ => (none : Option ℚ)) ⟨none⟩ 0 = "offline" ∧
    getDeviceStatus (fun _ => (none : Option ℚ)) ⟨some ""⟩ 0 = "offline" ∧
    getDeviceStatus (fun _ => (none : Option ℚ)) ⟨some "not a timestamp"⟩ 0 = "offline" ∧
    isDeviceActive (fun _ => (none : Option ℚ)) ⟨none⟩ 0 = false ∧
    isDeviceActive (fun _ => (none : Option ℚ)) ⟨some ""⟩ 0 = false ∧
    isDeviceActive (fun _ => (none : Option ℚ)) ⟨some "not a timestamp"⟩ 0 = false :=
  ⟨(c10_status_total_offline (fun _ => none) 0).1,
   (c10_status_total_offline (fun _ => none) 0).2.1,
   (c10_status_total_offline (fun _ => none) 0).2.2.1 "not a timestamp" rfl,
   (c10_status_total_offline (fun _ => none) 0).2.2.2.1,
   (c10_status_total_offline (fun _ => none) 0).2.2.2.2.1,
   (c10_status_total_offline (fun _ => none) 0).2.2.2.2.2 "not a timestamp" rfl⟩

end Milesight
